import Mathlib

/-!
Verification development for the CAMPP local web development stack
(a Tauri + React + TypeScript frontend supervising Caddy, PHP-FPM and
MariaDB service processes).

The definitions below form a shallow embedding of the TypeScript
frontend source:
  * `src/types/services.ts` — the data model (service kinds, service
    states, status records, settings, download progress, display maps);
  * `src/components/ServiceCard.tsx` — the per-service card render
    function (status badge, error box, action buttons);
  * `src/components/SettingsPanel.tsx` — the port change handler;
  * `src/components/Dashboard.tsx` — the service grid enumeration.

The Rust backend (`src-tauri`: process manager, port resolver,
orchestration facade) is not part of the frontend sources; where a
property depends on it, a definition explicitly marked as modelled from
the specification stands in for the missing code.
-/

/-- The closed set of supervised service kinds, from the TypeScript
enum `ServiceType` in `src/types/services.ts` (members `Caddy`,
`PhpFpm`, `MariaDB` with string values "caddy", "php-fpm", "mariadb"). -/
inductive ServiceType where
  | caddy
  | phpFpm
  | mariadb
deriving DecidableEq, Repr, Fintype

/-- String value of each `ServiceType` enum member, as declared in
`src/types/services.ts`. -/
def serviceTypeStr : ServiceType → String
  | .caddy => "caddy"
  | .phpFpm => "php-fpm"
  | .mariadb => "mariadb"

/-- The service lifecycle states, from the TypeScript enum
`ServiceState` in `src/types/services.ts`. -/
inductive ServiceState where
  | stopped
  | starting
  | running
  | stopping
  | error
deriving DecidableEq, Repr, Fintype

/-- String value of each `ServiceState` enum member, as declared in
`src/types/services.ts`. -/
def serviceStateStr : ServiceState → String
  | .stopped => "stopped"
  | .starting => "starting"
  | .running => "running"
  | .stopping => "stopping"
  | .error => "error"

/-- The per-service status record, from the TypeScript interface
`ServiceInfo` in `src/types/services.ts`: a service type, a state, a
port, and an optional error message. -/
structure ServiceInfo where
  service_type : ServiceType
  state : ServiceState
  port : Nat
  error_message : Option String
deriving DecidableEq, Repr

/-- The status snapshot type, from `ServiceMap = Record<ServiceType,
ServiceInfo>` in `src/types/services.ts`: a total map from service
kind to status record. -/
def ServiceMap : Type := ServiceType → ServiceInfo

/-- The download progress step, from the union type of the `step` field
of `DownloadProgress` in `src/types/services.ts`:
"downloading" | "extracting" | "installing" | "complete". -/
inductive DownloadStep where
  | downloading
  | extracting
  | installing
  | complete
deriving DecidableEq, Repr, Fintype

/-- String value of each `DownloadStep` alternative, as written in the
union type in `src/types/services.ts`. -/
def downloadStepStr : DownloadStep → String
  | .downloading => "downloading"
  | .extracting => "extracting"
  | .installing => "installing"
  | .complete => "complete"

/-- The download progress event value, from the TypeScript interface
`DownloadProgress` in `src/types/services.ts`. Its fields are exactly
`step`, `percent`, `currentComponent`, `totalComponents`; the TS
`number` field `percent` is modelled as an integer (the properties at
issue only concern ordering against 0 and 100). -/
structure DownloadProgress where
  step : DownloadStep
  percent : Int
  currentComponent : String
  totalComponents : Nat
deriving DecidableEq, Repr

/-- Default port per service, from `DEFAULT_PORTS` in
`src/types/services.ts`. -/
def DEFAULT_PORTS : ServiceType → Nat
  | .caddy => 8080
  | .phpFpm => 9000
  | .mariadb => 3307

/-- Display name per service, from `SERVICE_DISPLAY_NAMES` in
`src/types/services.ts`. -/
def SERVICE_DISPLAY_NAMES : ServiceType → String
  | .caddy => "Caddy"
  | .phpFpm => "PHP-FPM 8.3"
  | .mariadb => "MariaDB"

/-- Description per service, from `SERVICE_DESCRIPTIONS` in
`src/types/services.ts`. -/
def SERVICE_DESCRIPTIONS : ServiceType → String
  | .caddy => "Web Server"
  | .phpFpm => "PHP Runtime"
  | .mariadb => "Database Server"

/-- Status badge color per state, from the `statusColors` object in
`src/components/ServiceCard.tsx`. -/
def statusColors : ServiceState → String
  | .stopped => "gray"
  | .starting => "blue"
  | .running => "green"
  | .stopping => "orange"
  | .error => "red"

/-- The service list rendered by the dashboard grid, from the array
literal in `src/components/Dashboard.tsx`
(`[ServiceType.Caddy, ServiceType.PhpFpm, ServiceType.MariaDB].map`). -/
def dashboardServices : List ServiceType :=
  [.caddy, .phpFpm, .mariadb]

/-- Which card action a rendered button triggers (the `onStart`,
`onStop`, `onRestart` props of `ServiceCard`). -/
inductive CardAction where
  | start
  | stop
  | restart
deriving DecidableEq, Repr

/-- A rendered action button of the service card: its `data-testid`,
its `disabled` attribute, and the handler it invokes on click. -/
structure RenderedButton where
  testId : String
  disabled : Bool
  action : CardAction
deriving DecidableEq, Repr

/-- The observable output of rendering one `ServiceCard`
(`src/components/ServiceCard.tsx`): badge text and color class, the
port line, the error box (displayed text paired with the `title`
attribute holding the full message) when rendered, and the list of
action buttons in document order. -/
structure RenderedCard where
  testId : String
  badgeText : String
  badgeColor : String
  portLine : String
  errorBox : Option (String × String)
  buttons : List RenderedButton
deriving DecidableEq, Repr

/-- JavaScript truthiness of the optional `error` string prop: the
error box is guarded by `isError && error && (...)`, and an `undefined`
or empty string is falsy. -/
def strTruthy : Option String → Bool
  | none => false
  | some s => !(s == "")

/-- Shallow embedding of the `ServiceCard` component body
(`src/components/ServiceCard.tsx`): `port` defaults to
`DEFAULT_PORTS[serviceType]` when the prop is absent; the error box is
rendered only when the state is `Error` and the error prop is truthy,
truncating messages longer than 100 characters to their first 100
characters followed by "..." while the `title` attribute keeps the full
message; the Start button is rendered when the state is not `Running`
and the Stop and Restart buttons when it is, each with
`disabled = isTransitioning` where `isTransitioning` means `Starting`
or `Stopping`. -/
def serviceCard (serviceType : ServiceType) (state : ServiceState)
    (portProp : Option Nat) (err : Option String) : RenderedCard :=
  let port := portProp.getD (DEFAULT_PORTS serviceType)
  let isRunning := state = ServiceState.running
  let isTransitioning :=
    state = ServiceState.starting ∨ state = ServiceState.stopping
  let isError := state = ServiceState.error
  { testId := "service-card-" ++ serviceTypeStr serviceType
    badgeText := serviceStateStr state
    badgeColor := statusColors state
    portLine := "Port: " ++ toString port
    errorBox :=
      if isError ∧ strTruthy err then
        match err with
        | some e =>
            some (if e.length > 100 then e.take 100 ++ "..." else e, e)
        | none => none
      else none
    buttons :=
      (if ¬ isRunning then
        [{ testId := "start-button-" ++ serviceTypeStr serviceType
           disabled := decide isTransitioning
           action := CardAction.start }]
      else []) ++
      (if isRunning then
        [{ testId := "stop-button-" ++ serviceTypeStr serviceType
           disabled := decide isTransitioning
           action := CardAction.stop },
         { testId := "restart-button-" ++ serviceTypeStr serviceType
           disabled := decide isTransitioning
           action := CardAction.restart }]
      else []) }

/-- Whether the rendered card contains a button for the given action. -/
def hasButton (c : RenderedCard) (a : CardAction) : Bool :=
  c.buttons.any (fun b => b.action == a)

/-- Whether every button of the card for the given action is disabled
(vacuously true when no such button is rendered). -/
def buttonDisabled (c : RenderedCard) (a : CardAction) : Bool :=
  c.buttons.all (fun b => !(b.action == a) || b.disabled)

/-- The user settings record, from the `AppSettings` shape used by
`src/components/SettingsPanel.tsx` (fields `web_port`, `php_port`,
`mysql_port`, `project_root`). Port fields hold the TS `number` the
handler stores, modelled as an integer. -/
structure AppSettings where
  web_port : Int
  php_port : Int
  mysql_port : Int
  project_root : String
deriving DecidableEq, Repr

/-- The port fields of `AppSettings` that the settings panel's inputs
pass to `handlePortChange` ("web_port", "php_port", "mysql_port" at its
three call sites in `src/components/SettingsPanel.tsx`). -/
inductive PortField where
  | web_port
  | php_port
  | mysql_port
deriving DecidableEq, Repr, Fintype

/-- Read one port field of the settings record. -/
def getPortField (s : AppSettings) : PortField → Int
  | .web_port => s.web_port
  | .php_port => s.php_port
  | .mysql_port => s.mysql_port

/-- Computed update `{ ...settings, [field]: numValue }` of one port
field, leaving every other field as it was. -/
def setPortField (s : AppSettings) : PortField → Int → AppSettings
  | .web_port, n => { s with web_port := n }
  | .php_port, n => { s with php_port := n }
  | .mysql_port, n => { s with mysql_port := n }

/-- Value of a run of decimal digit characters, most significant
first. -/
def digitsToNat (ds : List Char) : Nat :=
  ds.foldl (fun acc c => 10 * acc + (c.toNat - 48)) 0

/-- Shallow embedding of JavaScript `parseInt(value, 10)` as used by
the settings handler: skip leading whitespace, consume an optional
sign, then the longest run of decimal digits; `NaN` (here `none`) when
that run is empty, otherwise the signed integer value of the run,
ignoring any trailing non-digit characters. -/
def parseIntJS (s : String) : Option Int :=
  let cs := s.toList.dropWhile (fun c => c.isWhitespace)
  let signAndRest : Int × List Char :=
    match cs with
    | '-' :: rest => (-1, rest)
    | '+' :: rest => (1, rest)
    | _ => (1, cs)
  let ds := signAndRest.2.takeWhile (fun c => c.isDigit)
  if ds.isEmpty then none
  else some (signAndRest.1 * (digitsToNat ds : Int))

/-- Shallow embedding of `handlePortChange` from
`src/components/SettingsPanel.tsx`: parse the input with
`parseInt(value, 10)`; if the result is `NaN` or below 1 or above
65535, return without touching the settings; otherwise store the
parsed value in the named field of a copy of the settings record. -/
def handlePortChange (settings : AppSettings) (field : PortField)
    (value : String) : AppSettings :=
  match parseIntJS value with
  | none => settings
  | some numValue =>
      if numValue < 1 ∨ numValue > 65535 then settings
      else setPortField settings field numValue

/-- An observable process-level operation attempted by the process
manager while stopping a service. -/
inductive ProcessOp where
  | gracefulSignal
  | forceKill
deriving DecidableEq, Repr

/-- Result of a `stop(service)` call: the state it returns, the
intermediate states an observer of the bookkeeping could see, and the
process operations attempted. -/
structure StopResult where
  finalState : ServiceState
  intermediateStates : List ServiceState
  processOps : List ProcessOp
deriving DecidableEq, Repr

/-- Modelled from the spec: the Process Manager's `stop(service)`
operation lives in the missing Rust backend (`src-tauri`). Per §4.5 of
the specification it is a no-op returning `Stopped` if the service is
already `Stopped`; otherwise it drives `Running|Starting → Stopping →
Stopped`, sending a graceful termination signal first and escalating to
a forceful kill when the grace period elapses (`gracefulExits` says
whether the process exited within the grace period). -/
def stopService (gracefulExits : Bool) : ServiceState → StopResult
  | .stopped => ⟨.stopped, [], []⟩
  | _ =>
      ⟨.stopped, [.stopping, .stopped],
        if gracefulExits then [.gracefulSignal]
        else [.gracefulSignal, .forceKill]⟩

/-- Outcome of a facade-level start, stop or restart operation on a
service: either the operation settles in a non-error state, or it
fails with a human-readable message. -/
inductive OpOutcome where
  | ok (final : ServiceState)
  | failed (msg : String)
deriving DecidableEq, Repr

/-- Modelled from the spec: the Orchestration Facade's
`start/stop/restart` commands live in the missing Rust backend
(`src-tauri`). Per §7 of the specification a failure is captured into
the service's own `Error(message)` state — recorded on the service's
status record and returned — rather than thrown across the facade
boundary: the operation is a total function into the updated status
record. -/
def facadeOpResult (info : ServiceInfo) : OpOutcome → ServiceInfo
  | .ok final => { info with state := final, error_message := none }
  | .failed msg => { info with state := .error, error_message := some msg }

/-- Events of the per-service lifecycle state machine of §4.5 of the
specification. -/
inductive PMEvent where
  | start
  | listenOk
  | startFailed (msg : String)
  | stopCmd
  | unexpectedExit (msg : String)
  | exitConfirmed
deriving DecidableEq, Repr

/-- Modelled from the spec: the Process Manager's state machine lives
in the missing Rust backend (`src-tauri`). The transition table of
§4.5: `Stopped --start--> Starting`, `Starting --listen ok--> Running`,
`Starting --timeout/spawn failure--> Error(msg)`, `Running --stop-->
Stopping`, `Running --unexpected exit--> Error(msg)`, `Stopping --exit
confirmed--> Stopped`, and `Error --start--> Starting` clearing the
prior error; any other pairing leaves the record unchanged. -/
def pmTransition (info : ServiceInfo) : PMEvent → ServiceInfo :=
  fun e =>
    match info.state, e with
    | .stopped, .start => { info with state := .starting, error_message := none }
    | .starting, .listenOk => { info with state := .running }
    | .starting, .startFailed msg =>
        { info with state := .error, error_message := some msg }
    | .running, .stopCmd => { info with state := .stopping }
    | .running, .unexpectedExit msg =>
        { info with state := .error, error_message := some msg }
    | .stopping, .exitConfirmed => { info with state := .stopped }
    | .error, .start => { info with state := .starting, error_message := none }
    | _, _ => info

/-- Modelled from the spec: applying a lifecycle event to one service
of the status map; each service's state machine is independent, so
only the addressed service's record is recomputed. -/
def mapTransition (m : ServiceMap) (k : ServiceType) (e : PMEvent) :
    ServiceMap :=
  fun k' => if k' = k then pmTransition (m k') e else m k'

/-- Modelled from the spec: the Port Resolver's bounded scan lives in
the missing Rust backend (`src-tauri/src/config/ports.rs`,
`find_available_port`). Probe the ports `first, first+1, ...` in order
for `attempts` attempts and return the first bindable one, `none` when
the attempts are exhausted. -/
def scanPorts (bindable : Nat → Bool) : Nat → Nat → Option Nat
  | _, 0 => none
  | first, n + 1 =>
      if bindable first then some first else scanPorts bindable (first + 1) n

/-- Modelled from the spec: `resolve(preferred)` of §4.1 checks whether
`preferred` is bindable, then scans the alternates `preferred+1,
preferred+2, ...` up to the fixed attempt cap, returning the first
bindable port; the `none` result is the `NoPortAvailable` failure when
the cap is exhausted. -/
def resolvePort (bindable : Nat → Bool) (attemptCap preferred : Nat) :
    Option Nat :=
  scanPorts bindable preferred (attemptCap + 1)

/-- The card's button for a given action, when rendered. -/
def findButton (c : RenderedCard) (a : CardAction) : Option RenderedButton :=
  c.buttons.find? (fun b => b.action == a)

/-- A concrete status snapshot in which every service sits in the
`Error` state with a spawn-failure message (used to instantiate the
universally quantified theorems). -/
def errorMapExample : ServiceMap :=
  fun k => { service_type := k, state := .error, port := DEFAULT_PORTS k,
             error_message := some "spawn failed" }

/-- A concrete settings record with the default ports (used to
instantiate the universally quantified theorems). -/
def exampleSettings : AppSettings :=
  { web_port := 8080, php_port := 9000, mysql_port := 3307,
    project_root := "" }

/-- C1: every service state is exactly one of the five values Stopped,
Starting, Running, Stopping, Error, and every status snapshot (a
`ServiceMap`) assigns each service kind a record carrying that state, a
port, and an optional error message. -/
theorem serviceState_five_values_and_snapshot_shape
    (m : ServiceMap) (k : ServiceType) :
    ((m k).state = ServiceState.stopped ∨
      (m k).state = ServiceState.starting ∨
      (m k).state = ServiceState.running ∨
      (m k).state = ServiceState.stopping ∨
      (m k).state = ServiceState.error) ∧
    m k = { service_type := (m k).service_type, state := (m k).state,
            port := (m k).port, error_message := (m k).error_message } := by
  refine ⟨?_, rfl⟩
  cases h : (m k).state <;> simp

/-- C2 counterexample: the `ServiceType` enum in `src/types/services.ts`
has exactly three members, not four, and none of its string values is
"db-admin" (nor "web-server", "php-runtime" or "database" — the values
are "caddy", "php-fpm" and "mariadb"). -/
theorem serviceType_card_is_three_not_four :
    Fintype.card ServiceType = 3 ∧ Fintype.card ServiceType ≠ 4 ∧
    serviceTypeStr ServiceType.caddy = "caddy" ∧
    serviceTypeStr ServiceType.phpFpm = "php-fpm" ∧
    serviceTypeStr ServiceType.mariadb = "mariadb" := by
  decide

/-- C2 (amended): the set of supervised service kinds is a fixed
closed set of exactly three members — caddy (web server), php-fpm (PHP
runtime), mariadb (database) — and the dashboard's dispatch over kind
enumerates each of these three exhaustively and without repetition. -/
theorem serviceKinds_closed_three_exhaustive :
    Fintype.card ServiceType = 3 ∧
    (∀ t : ServiceType,
      t = ServiceType.caddy ∨ t = ServiceType.phpFpm ∨
        t = ServiceType.mariadb) ∧
    (∀ t : ServiceType, t ∈ dashboardServices) ∧
    dashboardServices.Nodup := by
  decide

/-- C6 counterexample: the `DownloadProgress` type in
`src/types/services.ts` has exactly four step values and none of them
is "error"; moreover the type carries a component count rather than
byte totals and admits a percent value of 150, outside [0,100]. -/
theorem downloadProgress_no_error_step_unclamped :
    Fintype.card DownloadStep = 4 ∧
    downloadStepStr DownloadStep.downloading ≠ "error" ∧
    downloadStepStr DownloadStep.extracting ≠ "error" ∧
    downloadStepStr DownloadStep.installing ≠ "error" ∧
    downloadStepStr DownloadStep.complete ≠ "error" ∧
    (DownloadProgress.mk DownloadStep.downloading 150 "caddy" 4).percent
      = 150 ∧
    ¬ (DownloadProgress.mk DownloadStep.downloading 150 "caddy" 4).percent
        ≤ 100 := by
  decide

/-- C6 (amended): every `DownloadProgress` value carries a step that is
one of exactly the four values downloading, extracting, installing,
complete, together with a percent, the current component identity, and
the total number of components; the type has no error step and no byte
counts, and does not constrain percent to [0,100]. -/
theorem downloadProgress_step_and_fields (p : DownloadProgress) :
    (p.step = DownloadStep.downloading ∨ p.step = DownloadStep.extracting ∨
      p.step = DownloadStep.installing ∨ p.step = DownloadStep.complete) ∧
    p = { step := p.step, percent := p.percent,
          currentComponent := p.currentComponent,
          totalComponents := p.totalComponents } := by
  refine ⟨?_, rfl⟩
  cases h : p.step <;> simp

/-- C8: the ServiceCard renders its controls as a function of the state
only — the Start button is rendered exactly when the state is not
Running and carries `disabled = true` exactly when the state is
Starting or Stopping, while the Stop and Restart buttons are rendered
exactly when the state is Running (and are then enabled). -/
theorem serviceCard_buttons_by_state (k : ServiceType) (st : ServiceState)
    (port : Option Nat) (err : Option String) :
    ((findButton (serviceCard k st port err) CardAction.start).isSome ↔
      st ≠ ServiceState.running) ∧
    ((findButton (serviceCard k st port err) CardAction.start).map
        RenderedButton.disabled = some true ↔
      (st = ServiceState.starting ∨ st = ServiceState.stopping)) ∧
    ((findButton (serviceCard k st port err) CardAction.stop).isSome ↔
      st = ServiceState.running) ∧
    ((findButton (serviceCard k st port err) CardAction.restart).isSome ↔
      st = ServiceState.running) ∧
    ((findButton (serviceCard k st port err) CardAction.stop).map
        RenderedButton.disabled = some false ↔ st = ServiceState.running) ∧
    ((findButton (serviceCard k st port err) CardAction.restart).map
        RenderedButton.disabled = some false ↔ st = ServiceState.running) := by
  cases st <;>
    simp +decide [serviceCard, findButton, List.find?, beq_eq_decide]

/-- C10: a service card in the Error state with a nonempty error
message displays the message verbatim when it is at most 100 characters
long and otherwise displays exactly its first 100 characters followed
by "..." with the full message kept in the element's title; in any
state other than Error no error text is rendered. -/
theorem serviceCard_error_display (k : ServiceType) (st : ServiceState)
    (port : Option Nat) (msg : String) :
    (st = ServiceState.error → msg ≠ "" → msg.length ≤ 100 →
      (serviceCard k st port (some msg)).errorBox = some (msg, msg)) ∧
    (st = ServiceState.error → msg ≠ "" → 100 < msg.length →
      (serviceCard k st port (some msg)).errorBox =
        some (msg.take 100 ++ "...", msg)) ∧
    (∀ err : Option String, st ≠ ServiceState.error →
      (serviceCard k st port err).errorBox = none) := by
  refine ⟨?_, ?_, ?_⟩
  · intro hst hmsg hlen
    subst hst
    simp [serviceCard, strTruthy, hmsg]
    omega
  · intro hst hmsg hlen
    subst hst
    simp [serviceCard, strTruthy, hmsg]
    omega
  · intro err hst
    cases st <;> simp_all [serviceCard]

/-- Witness for C10 at a concrete card: a short message is shown
verbatim with itself as title. -/
theorem serviceCard_error_display_witness :
    (serviceCard ServiceType.caddy ServiceState.error none
        (some "Port 8080 already in use")).errorBox =
      some ("Port 8080 already in use", "Port 8080 already in use") :=
  (serviceCard_error_display ServiceType.caddy ServiceState.error none
    "Port 8080 already in use").1 rfl (by decide) (by decide)

/-- C3: a failed start/stop/restart is captured into the service's own
Error state with its message and returned as the resulting status
record (the facade operation is a total function — nothing is thrown),
and the attached message is exactly what the card rendered from the
status snapshot carries in its error element's title. -/
theorem facade_failure_captured_as_error_state (info : ServiceInfo)
    (msg : String) (h : msg ≠ "") :
    (facadeOpResult info (OpOutcome.failed msg)).state = ServiceState.error ∧
    (facadeOpResult info (OpOutcome.failed msg)).error_message = some msg ∧
    ((serviceCard (facadeOpResult info (OpOutcome.failed msg)).service_type
        (facadeOpResult info (OpOutcome.failed msg)).state
        (some (facadeOpResult info (OpOutcome.failed msg)).port)
        (facadeOpResult info (OpOutcome.failed msg)).error_message).errorBox).map
        Prod.snd = some msg := by
  refine ⟨rfl, rfl, ?_⟩
  simp [facadeOpResult, serviceCard, strTruthy, h]

/-- Witness for C3 at a concrete failure: a port conflict during start
lands in the Error state carrying its message. -/
theorem facade_failure_captured_witness :
    (facadeOpResult
        { service_type := ServiceType.caddy, state := ServiceState.stopped,
          port := 8080, error_message := none }
        (OpOutcome.failed "Port 8080 already in use")).state =
      ServiceState.error :=
  (facade_failure_captured_as_error_state
    { service_type := ServiceType.caddy, state := ServiceState.stopped,
      port := 8080, error_message := none }
    "Port 8080 already in use" (by decide)).1

/-- C4: stopping an already-Stopped service is a no-op — it returns
Stopped, passes through no intermediate state, and attempts no process
operation, whether or not a graceful exit would have succeeded. -/
theorem stop_on_stopped_is_noop (gracefulExits : Bool) :
    (stopService gracefulExits ServiceState.stopped).finalState =
        ServiceState.stopped ∧
    (stopService gracefulExits ServiceState.stopped).processOps = [] ∧
    (stopService gracefulExits ServiceState.stopped).intermediateStates
        = [] := by
  exact ⟨rfl, rfl, rfl⟩

/-- C5: for a service currently in the Error state, start() transitions
it to Starting and clears the prior error, leaves every other service's
record untouched (no service's error is fatal to another), and the
card rendered for the Error state offers an enabled Start button as the
retry path. -/
theorem error_start_retries_and_is_independent (m : ServiceMap)
    (k : ServiceType) (h : (m k).state = ServiceState.error) :
    (mapTransition m k PMEvent.start k).state = ServiceState.starting ∧
    (mapTransition m k PMEvent.start k).error_message = none ∧
    (∀ k', k' ≠ k → mapTransition m k PMEvent.start k' = m k') ∧
    (findButton
        (serviceCard k (m k).state (some (m k).port) (m k).error_message)
        CardAction.start).map RenderedButton.disabled = some false := by
  refine ⟨?_, ?_, ?_, ?_⟩
  · simp [mapTransition, pmTransition, h]
  · simp [mapTransition, pmTransition, h]
  · intro k' hk'
    simp [mapTransition, hk']
  · rw [h]
    simp +decide [serviceCard, findButton, List.find?, beq_eq_decide]

/-- Witness for C5 at a concrete snapshot where every service is in the
Error state: starting caddy moves it to Starting with the error
cleared, and mariadb's record is untouched. -/
theorem error_start_retries_witness :
    (mapTransition errorMapExample ServiceType.caddy PMEvent.start
        ServiceType.caddy).state = ServiceState.starting ∧
    (mapTransition errorMapExample ServiceType.caddy PMEvent.start
        ServiceType.caddy).error_message = none ∧
    mapTransition errorMapExample ServiceType.caddy PMEvent.start
        ServiceType.mariadb = errorMapExample ServiceType.mariadb := by
  have h := error_start_retries_and_is_independent errorMapExample
    ServiceType.caddy rfl
  exact ⟨h.1, h.2.1, h.2.2.1 ServiceType.mariadb (by decide)⟩

/-- A successful scan returns a bindable port inside the probed window,
and it is the first bindable one in scan order. -/
theorem scanPorts_some_spec (bindable : Nat → Bool) :
    ∀ (n first p : Nat), scanPorts bindable first n = some p →
      bindable p = true ∧ first ≤ p ∧ p < first + n ∧
        ∀ q, first ≤ q → q < p → bindable q = false := by
  intro n
  induction n with
  | zero => intro first p h; simp [scanPorts] at h
  | succ n ih =>
      intro first p h
      rw [scanPorts] at h
      by_cases hb : bindable first = true
      · rw [if_pos hb] at h
        obtain rfl : first = p := by injection h
        exact ⟨hb, le_refl _, by omega, fun q hq hq' => by omega⟩
      · rw [if_neg hb] at h
        obtain ⟨h1, h2, h3, h4⟩ := ih (first + 1) p h
        refine ⟨h1, by omega, by omega, ?_⟩
        intro q hq hq'
        rcases Nat.eq_or_lt_of_le hq with rfl | hlt
        · exact Bool.eq_false_iff.mpr hb
        · exact h4 q hlt hq'

/-- An exhausted scan means no port in the probed window is bindable. -/
theorem scanPorts_none_spec (bindable : Nat → Bool) :
    ∀ (n first : Nat), scanPorts bindable first n = none →
      ∀ q, first ≤ q → q < first + n → bindable q = false := by
  intro n
  induction n with
  | zero => intro first _ q hq hq'; omega
  | succ n ih =>
      intro first h q hq hq'
      rw [scanPorts] at h
      by_cases hb : bindable first = true
      · rw [if_pos hb] at h; exact absurd h (by simp)
      · rw [if_neg hb] at h
        rcases Nat.eq_or_lt_of_le hq with rfl | hlt
        · exact Bool.eq_false_iff.mpr hb
        · exact ih (first + 1) h q hlt (by omega)

/-- C7: the Port Resolver returns either the preferred port or an
alternate inside the attempt-cap window above it — never a port outside
`[preferred, preferred + attemptCap]` — scanning in the order
preferred, preferred+1, preferred+2, … and returning the first bindable
port; when it returns `none` (the `NoPortAvailable` failure) every port
of the window is unbindable, i.e. the cap is exhausted. -/
theorem portResolver_window_and_first_fit (bindable : Nat → Bool)
    (attemptCap preferred : Nat) :
    (∀ p, resolvePort bindable attemptCap preferred = some p →
      bindable p = true ∧ preferred ≤ p ∧ p ≤ preferred + attemptCap ∧
        ∀ q, preferred ≤ q → q < p → bindable q = false) ∧
    (resolvePort bindable attemptCap preferred = none →
      ∀ q, preferred ≤ q → q ≤ preferred + attemptCap →
        bindable q = false) := by
  constructor
  · intro p h
    obtain ⟨h1, h2, h3, h4⟩ :=
      scanPorts_some_spec bindable (attemptCap + 1) preferred p h
    exact ⟨h1, h2, by omega, h4⟩
  · intro h q hq hq'
    exact scanPorts_none_spec bindable (attemptCap + 1) preferred h q hq
      (by omega)

/-- Witness for C7 at a concrete probe: with 8080 occupied and 8081
free, `resolve(8080)` with attempt cap 10 returns 8081 — a bindable
port inside the window on which the scan found no earlier free port. -/
theorem portResolver_witness :
    resolvePort (fun p => p == 8081) 10 8080 = some 8081 ∧
    ((fun p : Nat => p == 8081) 8081) = true ∧
    8080 ≤ 8081 ∧ 8081 ≤ 8080 + 10 := by
  have h := (portResolver_window_and_first_fit (fun p => p == 8081)
    10 8080).1 8081 (by decide)
  exact ⟨by decide, h.1, h.2.1, h.2.2.1⟩

/-- C9: the settings panel's port change handler leaves the settings
record entirely unchanged when the input string does not parse (under
JavaScript `parseInt` semantics) to an integer in 1..65535, and
otherwise sets exactly the named port field to the parsed value while
every other field — the remaining two port fields and the project
root — keeps its previous value. -/
theorem handlePortChange_frame (st : AppSettings) (f : PortField)
    (v : String) :
    (parseIntJS v = none → handlePortChange st f v = st) ∧
    (∀ n : Int, parseIntJS v = some n → (n < 1 ∨ 65535 < n) →
      handlePortChange st f v = st) ∧
    (∀ n : Int, parseIntJS v = some n → 1 ≤ n → n ≤ 65535 →
      getPortField (handlePortChange st f v) f = n ∧
      (∀ g, g ≠ f →
        getPortField (handlePortChange st f v) g = getPortField st g) ∧
      (handlePortChange st f v).project_root = st.project_root) := by
  refine ⟨?_, ?_, ?_⟩
  · intro h
    simp [handlePortChange, h]
  · intro n h hrange
    have : n < 1 ∨ n > 65535 := hrange
    simp [handlePortChange, h, this]
  · intro n h h1 h2
    have hcond : ¬ (n < 1 ∨ n > 65535) := by omega
    refine ⟨?_, ?_, ?_⟩
    · simp only [handlePortChange, h, if_neg hcond]
      cases f <;> simp [getPortField, setPortField]
    · intro g hg
      simp only [handlePortChange, h, if_neg hcond]
      cases f <;> cases g <;>
        simp_all [getPortField, setPortField]
    · simp only [handlePortChange, h, if_neg hcond]
      cases f <;> simp [setPortField]

/-- Witness for C9 at a concrete input: changing the web port with the
string "8081" sets exactly that field; mysql port and project root are
untouched; and the out-of-range string "70000" changes nothing. -/
theorem handlePortChange_frame_witness :
    getPortField (handlePortChange exampleSettings PortField.web_port
        "8081") PortField.web_port = 8081 ∧
    getPortField (handlePortChange exampleSettings PortField.web_port
        "8081") PortField.mysql_port = 3307 ∧
    (handlePortChange exampleSettings PortField.web_port
        "8081").project_root = "" ∧
    handlePortChange exampleSettings PortField.web_port "70000" =
      exampleSettings := by
  have hparse : parseIntJS "8081" = some 8081 := by decide
  have h := (handlePortChange_frame exampleSettings PortField.web_port
    "8081").2.2 8081 hparse (by omega) (by omega)
  have hbig := (handlePortChange_frame exampleSettings PortField.web_port
    "70000").2.1 70000 (by decide) (by omega)
  exact ⟨h.1, by
    have := h.2.1 PortField.mysql_port (by decide)
    simpa [exampleSettings, getPortField] using this, by
    simpa [exampleSettings] using h.2.2, hbig⟩
